import Mathlib

/-!
Shallow embedding of the StatisticalEvaluationSystem CRUD backend
(src/server/services, src/server/controllers, src/unnamed/part_000,
src/db/schema.sql) and proofs about its pagination, filtering,
validation and error-translation behaviour.

Conventions of the embedding:
* Database tables are lists of row structures collected in `Db`.
* `findByPk` / `findOne` become `List.find?`; `destroy` becomes a
  filter removing the row with the given key; `create` appends.
* Optional JS parameters (destructuring defaults `page = 1, limit = 10`)
  become `Option Nat` with `Option.getD`.
* JS truthiness tests `if (search)` on string query parameters are
  false exactly for `undefined` and the empty string; `truthyStr`
  captures this.
* `Op.iLike` with `%s%` is a case-insensitive substring test, and an
  `iLike` pattern without wildcards is a case-insensitive equality;
  SQL `NULL ILIKE p` is not true, hence the `Option` variants return
  `false` on `none`.
* Thrown JS errors become explicit result constructors; the Express
  global error handler (src/server/server.js, lines 66-82) becomes
  `globalHandler`, producing `{status:'error', statusCode, message}`
  with `statusCode = err.status || 500`.
-/

/-- The `{field: message}` pair as pushed by the `validate` middlewares:
`extractedErrors.push({ [err.path]: err.msg })`. -/
structure FieldError where
  field : String
  msg : String
deriving Repr, DecidableEq

/-- JS truthiness of an optional string query parameter:
`undefined` and `""` are falsy. -/
def truthyStr : Option String → Option String
  | some s => if s = "" then none else some s
  | none => none

/-- Characters of a string folded to lower case (the executable
translation of SQL's case folding in `ILIKE`). -/
def lowerList (s : String) : List Char :=
  s.toList.map Char.toLower

/-- Translation of `Op.iLike` with pattern `%pat%`: case-insensitive substring test. -/
def iLike (hay pat : String) : Bool :=
  decide (lowerList pat <:+: lowerList hay)

/-- Translation of `Op.iLike` with a plain pattern on a nullable column:
case-insensitive equality, false on SQL NULL. -/
def iLikeEqOpt : Option String → String → Bool
  | none, _ => false
  | some v, pat => lowerList v == lowerList pat

/-- Translation of `Op.iLike` `%pat%` on a nullable column: false on SQL NULL. -/
def iLikeOpt : Option String → String → Bool
  | none, _ => false
  | some v, pat => iLike v pat

/-- services/*: `const getOffset = (page, limit) => (page - 1) * limit;`
(all controllers validate `page ≥ 1`, where Nat subtraction agrees
with JS arithmetic). -/
def getOffset (page limit : Nat) : Nat := (page - 1) * limit

/-- Translation of `Math.ceil(count / limit)` for integer `count` and `limit ≥ 1`. -/
def jsCeil (count limit : Nat) : Nat := (count + limit - 1) / limit

/-- Stable insertion used by `sortBy`. -/
def insertLe {α : Type} (le : α → α → Bool) (a : α) : List α → List α
  | [] => [a]
  | b :: bs => if le a b then a :: b :: bs else b :: insertLe le a bs

/-- Deterministic ordering applied by `findAndCountAll`'s `order`
option (insertion sort; stable, so deterministic given the stored
order). -/
def sortBy {α : Type} (le : α → α → Bool) : List α → List α
  | [] => []
  | a :: as => insertLe le a (sortBy le as)

/-! ## Row shapes (src/server/models, src/db/schema.sql) -/

/-- llm_provider row: id, name, hf_link, nullable country. -/
structure ProviderRow where
  id : String
  name : String
  hf_link : String
  country : Option String
deriving Repr, DecidableEq

/-- llm_model row (sampling parameters omitted: no claim touches
top_p/temperature/min_tokens/max_tokens, which are nullable floats). -/
structure ModelRow where
  id : String
  name : String
  hf_link : String
  description : String
  provider : String
  license : Option String
  version : String
  param_count : Nat
  context_window : Nat
deriving Repr, DecidableEq

/-- prompt row. -/
structure PromptRow where
  id : String
  prompt : String
  prompt_tokens : Int
  description : Option String
deriving Repr, DecidableEq

/-- evaluator ("user") row. -/
structure EvaluatorRow where
  id : String
  name : String
deriving Repr, DecidableEq

/-- llm_prompt junction row: composite PK (model_id, prompt_id),
nullable order, UNIQUE (model_id, "order"). -/
structure LLMPromptRow where
  model_id : String
  prompt_id : String
  order : Option Int
deriving Repr, DecidableEq

/-- user_prompt junction row: composite PK (user_id, prompt_id);
created_at drives the default list ordering. -/
structure UserPromptRow where
  user_id : String
  prompt_id : String
  created_at : Nat
deriving Repr, DecidableEq

/-- The relational state touched by the claims. -/
structure Db where
  providers : List ProviderRow
  models : List ModelRow
  prompts : List PromptRow
  evaluators : List EvaluatorRow
  llmPrompts : List LLMPromptRow
  userPrompts : List UserPromptRow
deriving Repr, DecidableEq

/-- Pagination envelope `{ totalItems, totalPages, currentPage, items }`
(the items key is named per entity in the JS: models / providers /
evaluators / associations / prompts). -/
structure Paginated (α : Type) where
  totalItems : Nat
  totalPages : Nat
  currentPage : Nat
  items : List α
deriving Repr, DecidableEq

/-! ## Where clauses -/

/-- llmProviderService.getAllProviders where clause:
`if (search) whereClause.name = {iLike %search%}`;
`if (country) whereClause.country = {iLike country}`. -/
def providerWhere (search country : Option String) (r : ProviderRow) : Bool :=
  (match truthyStr search with
   | some s => iLike r.name s
   | none => true)
  && (match truthyStr country with
      | some c => iLikeEqOpt r.country c
      | none => true)

/-- The value the `name` key of `getAllModels`' whereClause ends up
holding: `if (search) whereClause.name = {iLike %search%}` then
`if (name) whereClause.name = name` — the second assignment
overwrites the first. -/
inductive NameCond where
  | noCond
  | substr (pat : String)
  | exact (v : String)
deriving Repr, DecidableEq

/-- Sequential assignments to `whereClause.name` in
llmModelService.getAllModels (lines 20-25). -/
def modelNameCond (search name : Option String) : NameCond :=
  let c := NameCond.noCond
  let c := match truthyStr search with
    | some s => NameCond.substr s
    | none => c
  match truthyStr name with
  | some n => NameCond.exact n
  | none => c

/-- Full where clause of llmModelService.getAllModels (lines 18-32):
name key per `modelNameCond`, provider exact, license `%iLike%`. -/
def modelWhere (search name provider license : Option String) (m : ModelRow) : Bool :=
  (match modelNameCond search name with
   | NameCond.noCond => true
   | NameCond.substr s => iLike m.name s
   | NameCond.exact v => m.name == v)
  && (match truthyStr provider with
      | some p => m.provider == p
      | none => true)
  && (match truthyStr license with
      | some l => iLikeOpt m.license l
      | none => true)

/-- evaluatorService.getAllEvaluators where clause (name search only). -/
def evaluatorWhere (search : Option String) (r : EvaluatorRow) : Bool :=
  match truthyStr search with
  | some s => iLike r.name s
  | none => true

/-- userPromptService.getAllUserPrompts where clause
(exact user_id / prompt_id filters). -/
def userPromptWhere (user_id prompt_id : Option String) (r : UserPromptRow) : Bool :=
  (match truthyStr user_id with
   | some u => r.user_id == u
   | none => true)
  && (match truthyStr prompt_id with
      | some p => r.prompt_id == p
      | none => true)

/-! ## List services -/

/-- Rows of providers matching the filters in the service's default
order (`order: [['name','ASC']]`). -/
def providerListing (db : Db) (search country : Option String) : List ProviderRow :=
  sortBy (fun a b => a.name ≤ b.name) (db.providers.filter (providerWhere search country))

/-- llmProviderService.getAllProviders (src/unnamed/part_000, 23-52). -/
def getAllProviders (db : Db) (page limit : Option Nat)
    (search country : Option String) : Paginated ProviderRow :=
  let p := page.getD 1
  let l := limit.getD 10
  let offset := getOffset p l
  let rows := providerListing db search country
  let count := rows.length
  { totalItems := count
    totalPages := jsCeil count l
    currentPage := p
    items := (rows.drop offset).take l }

/-- Provider data attached to a model by the `include` option
(`attributes: ['id','name']`). -/
structure ProviderInfo where
  id : String
  name : String
deriving Repr, DecidableEq

/-- A model row with its included `llmProvider` data. -/
structure ModelWithProvider where
  model : ModelRow
  llmProvider : Option ProviderInfo
deriving Repr, DecidableEq

/-- The join performed by `include: [{ model: LLMProvider, as:
'llmProvider', attributes: ['id','name'] }]`. -/
def attachProvider (db : Db) (m : ModelRow) : ModelWithProvider :=
  { model := m
    llmProvider := (db.providers.find? (fun p => p.id == m.provider)).map
      (fun p => { id := p.id, name := p.name }) }

/-- Rows of models matching the filters in the service's default order
(`order: [['name','ASC']]`), with provider data included. -/
def modelListing (db : Db) (search name provider license : Option String) :
    List ModelWithProvider :=
  (sortBy (fun a b => a.name ≤ b.name)
    (db.models.filter (modelWhere search name provider license))).map (attachProvider db)

/-- llmModelService.getAllModels (lines 16-55). -/
def getAllModels (db : Db) (page limit : Option Nat)
    (search name provider license : Option String) : Paginated ModelWithProvider :=
  let p := page.getD 1
  let l := limit.getD 10
  let offset := getOffset p l
  let rows := modelListing db search name provider license
  let count := rows.length
  { totalItems := count
    totalPages := jsCeil count l
    currentPage := p
    items := (rows.drop offset).take l }

/-- evaluatorService.getAllEvaluators (lines 22-48). -/
def getAllEvaluators (db : Db) (page limit : Option Nat)
    (search : Option String) : Paginated EvaluatorRow :=
  let p := page.getD 1
  let l := limit.getD 10
  let offset := getOffset p l
  let rows := sortBy (fun a b => a.name ≤ b.name)
    (db.evaluators.filter (evaluatorWhere search))
  let count := rows.length
  { totalItems := count
    totalPages := jsCeil count l
    currentPage := p
    items := (rows.drop offset).take l }

/-- A user_prompt row with the included evaluator `{id, name}` and
prompt `{id, description}` data. -/
structure UserPromptWithIncludes where
  row : UserPromptRow
  evaluator : Option EvaluatorRow
  promptInfo : Option (String × Option String)
deriving Repr, DecidableEq

/-- Includes of userPromptService.getAllUserPrompts. -/
def attachUserPromptIncludes (db : Db) (r : UserPromptRow) : UserPromptWithIncludes :=
  { row := r
    evaluator := db.evaluators.find? (fun e => e.id == r.user_id)
    promptInfo := (db.prompts.find? (fun p => p.id == r.prompt_id)).map
      (fun p => (p.id, p.description)) }

/-- userPromptService.getAllUserPrompts (lines 23-57); default order
`created_at DESC`. -/
def getAllUserPrompts (db : Db) (page limit : Option Nat)
    (user_id prompt_id : Option String) : Paginated UserPromptWithIncludes :=
  let p := page.getD 1
  let l := limit.getD 10
  let offset := getOffset p l
  let rows := (sortBy (fun a b => b.created_at ≤ a.created_at)
    (db.userPrompts.filter (userPromptWhere user_id prompt_id))).map
    (attachUserPromptIncludes db)
  let count := rows.length
  { totalItems := count
    totalPages := jsCeil count l
    currentPage := p
    items := (rows.drop offset).take l }

/-! ## Get-by-id services -/

/-- llmProviderService.getProviderById: `LLMProvider.findByPk(id)`. -/
def getProviderById (db : Db) (id : String) : Option ProviderRow :=
  db.providers.find? (fun p => p.id == id)

/-- llmModelService.getModelById: `LLMModel.findByPk(id)` with the
provider include. -/
def getModelByIdService (db : Db) (id : String) : Option ModelWithProvider :=
  (db.models.find? (fun m => m.id == id)).map (attachProvider db)

/-- userPromptService.getUserPromptByCompositeKey with includes. -/
def getUserPromptByCompositeKey (db : Db) (userId promptId : String) :
    Option UserPromptWithIncludes :=
  (db.userPrompts.find? (fun r => r.user_id == userId && r.prompt_id == promptId)).map
    (attachUserPromptIncludes db)

/-! ## Validation helpers -/

/-- JS `String.prototype.includes`. -/
def jsIncludes (s sub : String) : Bool :=
  decide (sub.toList <:+: s.toList)

/-- Hexadecimal digit, either case (the `i` flag of the UUID regex). -/
def isHexDigit (c : Char) : Bool :=
  c.isDigit || ('a' ≤ c && c ≤ 'f') || ('A' ≤ c && c ≤ 'F')

/-- express-validator `isUUID(4)`:
`/^[0-9A-F]{8}-[0-9A-F]{4}-4[0-9A-F]{3}-[89AB][0-9A-F]{3}-[0-9A-F]{12}$/i`. -/
def isUUID4 (s : String) : Bool :=
  let cs := s.toList
  cs.length == 36 &&
  (List.range 36).all (fun i =>
    let c := cs.getD i ' '
    match i with
    | 8 | 13 | 18 | 23 => c == '-'
    | 14 => c == '4'
    | 19 => c == '8' || c == '9' || c == 'a' || c == 'b' || c == 'A' || c == 'B'
    | _ => isHexDigit c)

/-- paginationValidationRules (llmProviderController lines 11-16):
`page` optional `isInt({min:1})`, `limit` optional
`isInt({min:1,max:100})`.  Parameters are modelled after numeric
parsing, as `Option Int`. -/
def paginationErrors (page limit : Option Int) : List FieldError :=
  (match page with
   | some p => if p < 1 then [⟨"page", "Page must be a positive integer"⟩] else []
   | none => []) ++
  (match limit with
   | some l => if l < 1 ∨ 100 < l then [⟨"limit", "Limit must be between 1 and 100"⟩] else []
   | none => [])

/-! ## List controllers -/

/-- Response of a list route: 200 + envelope, or the `validate`
middleware's 422 + `{errors}` short-circuit. -/
inductive ListResp (α : Type) where
  | ok (body : Paginated α)
  | unprocessable (errors : List FieldError)
deriving Repr, DecidableEq

/-- HTTP status of a `ListResp`. -/
def ListResp.status {α : Type} : ListResp α → Nat
  | ok _ => 200
  | unprocessable _ => 422

/-- llmProviderController.getAllProviders (lines 170-182):
pagination validation chain, then the service call; the service is
read-only, so the response is the whole observable outcome. -/
def getAllProvidersCtrl (db : Db) (page limit : Option Int)
    (search country : Option String) : ListResp ProviderRow :=
  let errs := paginationErrors page limit
  if errs.isEmpty then
    ListResp.ok (getAllProviders db (page.map Int.toNat) (limit.map Int.toNat) search country)
  else ListResp.unprocessable errs

/-! ## Provider mutations -/

/-- Outcome of llmProviderService.deleteProvider: `false` (not found),
`true` (deleted), or the re-thrown foreign-key error. -/
inductive DeleteOutcome where
  | notFound
  | deleted
  | referenced (message : String)
deriving Repr, DecidableEq

/-- llmProviderService.deleteProvider (src/unnamed/part_000, 122-139):
`findByPk`, then `destroy()`, which the schema's restrict-on-delete
FK `fk_llm_model_provider` makes fail while some llm_model row
references the provider; the service re-throws that as
'Cannot delete provider because it is referenced by other records.'. -/
def deleteProviderService (db : Db) (id : String) : DeleteOutcome × Db :=
  match db.providers.find? (fun p => p.id == id) with
  | none => (DeleteOutcome.notFound, db)
  | some _ =>
    if db.models.any (fun m => m.provider == id) then
      (DeleteOutcome.referenced
        "Cannot delete provider because it is referenced by other records.", db)
    else
      (DeleteOutcome.deleted,
        { db with providers := db.providers.filter (fun p => p.id != id) })

/-- Response of the delete route. -/
inductive DeleteResp where
  | noContent
  | notFound (message : String)
  | badRequest (message : String)
  | unprocessable (errors : List FieldError)
  | internalError (message : String)
deriving Repr, DecidableEq

/-- HTTP status of a `DeleteResp`. -/
def DeleteResp.status : DeleteResp → Nat
  | noContent => 204
  | notFound _ => 404
  | badRequest _ => 400
  | unprocessable _ => 422
  | internalError _ => 500

/-- llmProviderController.deleteProvider (lines 352-371): id format
validation, 404 when the service returns false, 400 when the thrown
message includes 'referenced by other records', 204 otherwise. -/
def deleteProviderCtrl (db : Db) (id : String) : DeleteResp × Db :=
  if isUUID4 id then
    match deleteProviderService db id with
    | (DeleteOutcome.notFound, db1) => (DeleteResp.notFound "Provider not found", db1)
    | (DeleteOutcome.deleted, db1) => (DeleteResp.noContent, db1)
    | (DeleteOutcome.referenced msg, db1) =>
      if jsIncludes msg "referenced by other records" then (DeleteResp.badRequest msg, db1)
      else (DeleteResp.internalError msg, db1)
  else (DeleteResp.unprocessable [⟨"id", "Invalid provider ID format"⟩], db)

/-- The `updateData` object built by the updateProvider controller:
`{ name, hf_link, country: country || null }` — all three keys are
always present, so `provider.update(updateData)` writes all three
columns. -/
structure ProviderUpdateData where
  name : String
  hf_link : String
  country : Option String
deriving Repr, DecidableEq

/-- Effect of `provider.update(updateData)` for the controller's `updateData`. -/
def applyProviderUpdate (p : ProviderRow) (d : ProviderUpdateData) : ProviderRow :=
  { p with name := d.name, hf_link := d.hf_link, country := d.country }

/-- llmProviderService.updateProvider (src/unnamed/part_000, 99-115). -/
def updateProviderService (db : Db) (id : String) (d : ProviderUpdateData) :
    Option ProviderRow × Db :=
  match db.providers.find? (fun p => p.id == id) with
  | none => (none, db)
  | some p =>
    let p2 := applyProviderUpdate p d
    (some p2,
      { db with providers := db.providers.map (fun q => if q.id == id then p2 else q) })

/-- Request body of PUT /llm_provider/{id} after the validation chain
(name and hf_link are required by providerValidationRules; country is
optional). -/
structure ProviderBody where
  name : String
  hf_link : String
  country : Option String
deriving Repr, DecidableEq

/-- Response of an update route. -/
inductive UpdateProviderResp where
  | ok (p : ProviderRow)
  | notFound (message : String)
  | badRequest (message : String)
deriving Repr, DecidableEq

/-- HTTP status of an `UpdateProviderResp`. -/
def UpdateProviderResp.status : UpdateProviderResp → Nat
  | ok _ => 200
  | notFound _ => 404
  | badRequest _ => 400

/-- llmProviderController.updateProvider handler (lines 303-330), after
its validation chain: normalises `country: country || null` and calls
the service. -/
def updateProviderCtrl (db : Db) (id : String) (body : ProviderBody) :
    UpdateProviderResp × Db :=
  let updateData : ProviderUpdateData :=
    { name := body.name
      hf_link := body.hf_link
      country := truthyStr body.country }
  match updateProviderService db id updateData with
  | (none, db1) => (UpdateProviderResp.notFound "Provider not found", db1)
  | (some p, db1) => (UpdateProviderResp.ok p, db1)

/-! ## Model create -/

/-- Creatable fields of llm_model (request body after the validation
chain; sampling parameters omitted as in `ModelRow`). -/
structure ModelInput where
  name : String
  hf_link : String
  description : Option String
  provider : String
  license : Option String
  version : String
  param_count : Nat
  context_window : Nat
deriving Repr, DecidableEq

/-- Outcome of llmModelService.createModel: an http-errors error
(status + message) or the refetched created model (`return await
this.getModelById(newModel.id)`). -/
inductive CreateModelOutcome where
  | httpError (status : Nat) (message : String)
  | created (m : Option ModelWithProvider)
deriving Repr, DecidableEq

/-- The row `LLMModel.create(modelData)` stores: the payload fields
plus the database-generated id and the `description` column default
`''`. -/
def mkModelRow (newId : String) (data : ModelInput) : ModelRow :=
  { id := newId
    name := data.name
    hf_link := data.hf_link
    description := data.description.getD ""
    provider := data.provider
    license := data.license
    version := data.version
    param_count := data.param_count
    context_window := data.context_window }

/-- llmModelService.createModel (lines 81-103): fails fast with
`createError(400, 'Provider with ID ... not found.')` when the
referenced provider is absent; otherwise inserts (the database
generates the fresh id, modelled as `newId`) and refetches with the
provider include. -/
def createModelService (db : Db) (newId : String) (data : ModelInput) :
    CreateModelOutcome × Db :=
  match db.providers.find? (fun p => p.id == data.provider) with
  | none =>
    (CreateModelOutcome.httpError 400 ("Provider with ID " ++ data.provider ++ " not found."),
      db)
  | some _ =>
    let db2 := { db with models := db.models ++ [mkModelRow newId data] }
    (CreateModelOutcome.created (getModelByIdService db2 newId), db2)

/-- Response of POST /llm_model: 201 + created model, or the service's
http-error forwarded by `next(error)` to the global handler, which
responds with `err.status` and the message. -/
inductive CreateModelResp where
  | created (m : Option ModelWithProvider)
  | handlerError (statusCode : Nat) (message : String)
deriving Repr, DecidableEq

/-- HTTP status of a `CreateModelResp`. -/
def CreateModelResp.status : CreateModelResp → Nat
  | created _ => 201
  | handlerError s _ => s

/-- llmModelController.createModel handler (lines 192-205), after its
validation chain (`modelBodyValidationRules` + `validate`): service
errors pass through `next(error)` to the Express global handler. -/
def createModelCtrl (db : Db) (newId : String) (data : ModelInput) :
    CreateModelResp × Db :=
  match createModelService db newId data with
  | (CreateModelOutcome.httpError s m, db1) => (CreateModelResp.handlerError s m, db1)
  | (CreateModelOutcome.created m, db1) => (CreateModelResp.created m, db1)

/-! ## Prompt entity controllers (second half of userPromptController.js) -/

/-- Request body of POST /prompt (fields may be absent). -/
structure PromptCreateBody where
  prompt : Option String
  prompt_tokens : Option Int
  description : Option String
deriving Repr, DecidableEq

/-- Response of the prompt entity's routes. -/
inductive PromptCtrlResp where
  | created (p : PromptRow)
  | ok (p : PromptRow)
  | badRequest (message : String)
  | notFound (message : String)
deriving Repr, DecidableEq

/-- HTTP status of a `PromptCtrlResp`. -/
def PromptCtrlResp.status : PromptCtrlResp → Nat
  | created _ => 201
  | ok _ => 200
  | badRequest _ => 400
  | notFound _ => 404

/-- userPromptController.createPrompt (lines 360-384): inline checks
(`!prompt || prompt_tokens === undefined` then positivity) answering
400 with a single `{message}` body, then `Prompt.create`.  A present
`prompt_tokens` is modelled as a number, so `typeof` cannot fail. -/
def createPromptCtrl (db : Db) (newId : String) (b : PromptCreateBody) :
    PromptCtrlResp × Db :=
  match b.prompt_tokens with
  | none =>
    (PromptCtrlResp.badRequest "Missing required fields: prompt and prompt_tokens", db)
  | some t =>
    if b.prompt = none ∨ b.prompt = some "" then
      (PromptCtrlResp.badRequest "Missing required fields: prompt and prompt_tokens", db)
    else if t ≤ 0 then
      (PromptCtrlResp.badRequest "prompt_tokens must be a positive number", db)
    else
      let row : PromptRow :=
        { id := newId
          prompt := b.prompt.getD ""
          prompt_tokens := t
          description := truthyStr b.description }
      (PromptCtrlResp.created row, { db with prompts := db.prompts ++ [row] })

/-- Request body of PUT /prompt/{id}: each field may be absent; a
provided `description` may itself be null (`Option (Option String)`). -/
structure PromptUpdateBody where
  prompt : Option String
  prompt_tokens : Option Int
  description : Option (Option String)
deriving Repr, DecidableEq

/-- The guard `prompt_tokens !== undefined && prompt_tokens <= 0`. -/
def promptTokensInvalid (b : PromptUpdateBody) : Bool :=
  match b.prompt_tokens with
  | some t => t ≤ 0
  | none => false

/-- The three `if (x !== undefined) promptToUpdate.x = x` assignments
of updatePrompt. -/
def applyPromptUpdate (p : PromptRow) (b : PromptUpdateBody) : PromptRow :=
  { p with
    prompt := b.prompt.getD p.prompt
    prompt_tokens := b.prompt_tokens.getD p.prompt_tokens
    description := match b.description with
      | some d => d
      | none => p.description }

/-- userPromptController.updatePrompt (lines 387-415). -/
def updatePromptCtrl (db : Db) (id : String) (b : PromptUpdateBody) :
    PromptCtrlResp × Db :=
  if promptTokensInvalid b then
    (PromptCtrlResp.badRequest "If provided, prompt_tokens must be a positive number", db)
  else
    match db.prompts.find? (fun p => p.id == id) with
    | none => (PromptCtrlResp.notFound "Prompt not found", db)
    | some p =>
      let p2 := applyPromptUpdate p b
      (PromptCtrlResp.ok p2,
        { db with prompts := db.prompts.map (fun q => if q.id == id then p2 else q) })

/-! ## LLM-Prompt association create -/

/-- Constraint violations INSERT INTO llm_prompt can raise
(src/db/schema.sql: composite PK (model_id, prompt_id),
UNIQUE (model_id, "order") — SQL UNIQUE ignores NULLs — and the two
foreign keys). -/
inductive InsertError where
  | pkDuplicate
  | orderDuplicate
  | foreignKey
deriving Repr, DecidableEq

/-- Effect of `LLMPrompt.create(data)` at the database level. -/
def dbInsertLLMPrompt (db : Db) (row : LLMPromptRow) : Except InsertError Db :=
  if ¬ db.models.any (fun m => m.id == row.model_id) then Except.error InsertError.foreignKey
  else if ¬ db.prompts.any (fun p => p.id == row.prompt_id) then
    Except.error InsertError.foreignKey
  else if db.llmPrompts.any
      (fun r => r.model_id == row.model_id && r.prompt_id == row.prompt_id) then
    Except.error InsertError.pkDuplicate
  else if row.order.isSome && db.llmPrompts.any
      (fun r => r.model_id == row.model_id && r.order == row.order) then
    Except.error InsertError.orderDuplicate
  else Except.ok { db with llmPrompts := db.llmPrompts ++ [row] }

/-- Outcome of llmPromptService.createLLMPrompt. -/
inductive CreateLLMPromptOutcome where
  | created (r : LLMPromptRow)
  | serviceError (message : String)
deriving Repr, DecidableEq

/-- llmPromptService.createLLMPrompt (lines 90-113): translates the
unique-constraint violation on (model_id, prompt_id) vs
(model_id, order) and the FK violation into distinct messages. -/
def createLLMPromptService (db : Db) (data : LLMPromptRow) :
    CreateLLMPromptOutcome × Db :=
  match dbInsertLLMPrompt db data with
  | Except.ok db2 => (CreateLLMPromptOutcome.created data, db2)
  | Except.error InsertError.pkDuplicate =>
    (CreateLLMPromptOutcome.serviceError "This model-prompt association already exists.", db)
  | Except.error InsertError.orderDuplicate =>
    (CreateLLMPromptOutcome.serviceError
      "This order value is already used for the specified model.", db)
  | Except.error InsertError.foreignKey =>
    (CreateLLMPromptOutcome.serviceError "Invalid model_id or prompt_id provided.", db)

/-- bodyValidationRules of llmPromptController (lines 15-19):
notEmpty + isUUID(4) on model_id and prompt_id. -/
def llmPromptBodyErrors (model_id prompt_id : String) : List FieldError :=
  (if model_id = "" then [⟨"model_id", "model_id is required"⟩] else []) ++
  (if isUUID4 model_id then [] else [⟨"model_id", "Invalid model_id format"⟩]) ++
  (if prompt_id = "" then [⟨"prompt_id", "prompt_id is required"⟩] else []) ++
  (if isUUID4 prompt_id then [] else [⟨"prompt_id", "Invalid prompt_id format"⟩])

/-- Response of POST /llm_prompt. -/
inductive CreateLLMPromptResp where
  | created (r : LLMPromptRow)
  | badRequest (message : String)
  | unprocessable (errors : List FieldError)
  | internalError (message : String)
deriving Repr, DecidableEq

/-- HTTP status of a `CreateLLMPromptResp`. -/
def CreateLLMPromptResp.status : CreateLLMPromptResp → Nat
  | created _ => 201
  | badRequest _ => 400
  | unprocessable _ => 422
  | internalError _ => 500

/-- llmPromptController.createLLMPrompt (lines 245-270): validation
chain, order normalisation (`undefined`/`null` → null), service call,
then the `error.message.includes(...)` → 400 translation. -/
def createLLMPromptCtrl (db : Db) (model_id prompt_id : String) (order : Option Int) :
    CreateLLMPromptResp × Db :=
  let errs := llmPromptBodyErrors model_id prompt_id
  if errs.isEmpty then
    let data : LLMPromptRow := { model_id := model_id, prompt_id := prompt_id, order := order }
    match createLLMPromptService db data with
    | (CreateLLMPromptOutcome.created r, db1) => (CreateLLMPromptResp.created r, db1)
    | (CreateLLMPromptOutcome.serviceError msg, db1) =>
      if jsIncludes msg "already exists" || jsIncludes msg "Invalid model_id or prompt_id" ||
          jsIncludes msg "already used for the specified model" ||
          jsIncludes msg "Validation Error" then
        (CreateLLMPromptResp.badRequest msg, db1)
      else (CreateLLMPromptResp.internalError msg, db1)
  else (CreateLLMPromptResp.unprocessable errs, db)

/-! ## User-Prompt association create -/

/-- Outcome of userPromptService.createUserPrompt. -/
inductive CreateUserPromptOutcome where
  | created (r : UserPromptRow)
  | serviceError (message : String)
deriving Repr, DecidableEq

/-- userPromptService.createUserPrompt (lines 92-128): existence
checks on evaluator and prompt, duplicate check, then create
(`now` models the created_at timestamp the database assigns). -/
def createUserPromptService (db : Db) (user_id prompt_id : String) (now : Nat) :
    CreateUserPromptOutcome × Db :=
  if ¬ db.evaluators.any (fun e => e.id == user_id) then
    (CreateUserPromptOutcome.serviceError
      ("Evaluator (User) with ID " ++ user_id ++ " not found."), db)
  else if ¬ db.prompts.any (fun p => p.id == prompt_id) then
    (CreateUserPromptOutcome.serviceError ("Prompt with ID " ++ prompt_id ++ " not found."), db)
  else if db.userPrompts.any (fun r => r.user_id == user_id && r.prompt_id == prompt_id) then
    (CreateUserPromptOutcome.serviceError "This user-prompt association already exists.", db)
  else
    let row : UserPromptRow := { user_id := user_id, prompt_id := prompt_id, created_at := now }
    (CreateUserPromptOutcome.created row, { db with userPrompts := db.userPrompts ++ [row] })

/-- createValidationRules of userPromptController (lines 5-8). -/
def userPromptCreateErrors (user_id prompt_id : String) : List FieldError :=
  (if isUUID4 user_id then [] else [⟨"user_id", "Valid user_id (UUID v4) is required"⟩]) ++
  (if isUUID4 prompt_id then [] else [⟨"prompt_id", "Valid prompt_id (UUID v4) is required"⟩])

/-- Response of POST /user_prompt. -/
inductive CreateUserPromptResp where
  | created (body : UserPromptWithIncludes)
  | createdRaw (r : UserPromptRow)
  | badRequest (message : String)
  | unprocessable (errors : List FieldError)
  | internalError (message : String)
deriving Repr, DecidableEq

/-- HTTP status of a `CreateUserPromptResp`. -/
def CreateUserPromptResp.status : CreateUserPromptResp → Nat
  | created _ => 201
  | createdRaw _ => 201
  | badRequest _ => 400
  | unprocessable _ => 422
  | internalError _ => 500

/-- userPromptController.createUserPrompt (lines 255-274): validation
chain (422 short-circuit, service untouched), service call, refetch
with includes (`fullAssociation || newAssociation`), and the
message-based 400 translation. -/
def createUserPromptCtrl (db : Db) (user_id prompt_id : String) (now : Nat) :
    CreateUserPromptResp × Db :=
  let errs := userPromptCreateErrors user_id prompt_id
  if errs.isEmpty then
    match createUserPromptService db user_id prompt_id now with
    | (CreateUserPromptOutcome.created r, db1) =>
      match getUserPromptByCompositeKey db1 r.user_id r.prompt_id with
      | some full => (CreateUserPromptResp.created full, db1)
      | none => (CreateUserPromptResp.createdRaw r, db1)
    | (CreateUserPromptOutcome.serviceError msg, db1) =>
      if jsIncludes msg "not found" || jsIncludes msg "already exists" ||
          jsIncludes msg "Invalid" then
        (CreateUserPromptResp.badRequest msg, db1)
      else (CreateUserPromptResp.internalError msg, db1)
  else (CreateUserPromptResp.unprocessable errs, db)

/-! ## Arithmetic facts about `jsCeil` -/

/-- For `c ≥ 1`, `jsCeil c l = (c-1)/l + 1`. -/
theorem jsCeil_succ (c l : Nat) (hl : 0 < l) (hc : 1 ≤ c) :
    jsCeil c l = (c - 1) / l + 1 := by
  unfold jsCeil
  have h : c + l - 1 = (c - 1) + l := by omega
  rw [h, Nat.add_div_right _ hl]

/-- Splitting into `jsCeil c l` pages of size `l` covers all `c` items. -/
theorem le_jsCeil_mul (c l : Nat) (hl : 0 < l) : c ≤ jsCeil c l * l := by
  rcases Nat.eq_zero_or_pos c with hc | hc
  · simp [hc]
  · rw [jsCeil_succ c l hl hc]
    have h : c - 1 < ((c - 1) / l + 1) * l :=
      (Nat.div_lt_iff_lt_mul hl).mp (Nat.lt_succ_self _)
    omega

/-- Zero items give zero pages: `Math.ceil(0 / l) = 0`. -/
theorem jsCeil_zero (l : Nat) : jsCeil 0 l = 0 := by
  unfold jsCeil
  rcases Nat.eq_zero_or_pos l with h | h
  · subst h; rfl
  · exact Nat.div_eq_of_lt (by omega)

/-- The translation `jsCeil` of `Math.ceil(count / limit)` computes
the mathematical ceiling of the rational `count / limit`. -/
theorem jsCeil_eq_ceil (c l : Nat) (hl : 0 < l) :
    ⌈(c : ℚ) / (l : ℚ)⌉₊ = jsCeil c l := by
  have hlq : (0 : ℚ) < (l : ℚ) := by exact_mod_cast hl
  rcases Nat.eq_zero_or_pos c with hc | hc
  · subst hc
    simp [jsCeil_zero]
  · have hne : jsCeil c l ≠ 0 := by
      rw [jsCeil_succ c l hl hc]
      exact Nat.succ_ne_zero _
    rw [Nat.ceil_eq_iff hne]
    constructor
    · rw [jsCeil_succ c l hl hc]
      have hnat : ((c - 1) / l) * l ≤ c - 1 := Nat.div_mul_le_self _ _
      have hlt : ((c - 1) / l) * l < c := by omega
      rw [lt_div_iff₀ hlq]
      simp only [Nat.add_sub_cancel]
      exact_mod_cast hlt
    · rw [div_le_iff₀ hlq]
      have := le_jsCeil_mul c l hl
      exact_mod_cast this

/-! ## List facts -/

/-- Lemma: `find?` skips a prefix on which the predicate is false. -/
theorem find?_append_of_none {α : Type} (p : α → Bool) (l1 l2 : List α)
    (h : ∀ x ∈ l1, p x = false) : (l1 ++ l2).find? p = l2.find? p := by
  induction l1 with
  | nil => rfl
  | cons a as ih =>
    have ha : p a = false := h a (List.mem_cons_self a as)
    simp only [List.cons_append, List.find?, ha]
    exact ih (fun x hx => h x (List.mem_cons_of_mem a hx))

/-- After deleting every row with a given key, `find?` for that key
fails. -/
theorem find?_filter_key {α : Type} (key : α → String) (v : String) (l : List α) :
    (l.filter (fun x => key x != v)).find? (fun x => key x == v) = none := by
  rw [List.find?_eq_none]
  intro x hx
  have := (List.mem_filter.mp hx).2
  simp only [bne_iff_ne, ne_eq] at this
  simp [this]

/-! ## Concrete fixtures used by witnesses and counterexamples -/

/-- A well-formed v4 UUID (provider fixture id). -/
def uuidP : String := "11111111-1111-4111-8111-111111111111"

/-- A well-formed v4 UUID (model fixture id). -/
def uuidM : String := "22222222-2222-4222-8222-222222222222"

/-- A well-formed v4 UUID (prompt fixture id). -/
def uuidPr : String := "33333333-3333-4333-8333-333333333333"

/-- A well-formed v4 UUID (second prompt fixture id). -/
def uuidPr2 : String := "66666666-6666-4666-8666-666666666666"

/-- A well-formed v4 UUID (evaluator fixture id). -/
def uuidE : String := "44444444-4444-4444-8444-444444444444"

/-- A well-formed v4 UUID present in no fixture table. -/
def uuidX : String := "55555555-5555-4555-8555-555555555555"

/-- Provider fixture row. -/
def provW : ProviderRow :=
  { id := uuidP, name := "OpenAI", hf_link := "https://huggingface.co/openai",
    country := some "USA" }

/-- Model fixture row (references `provW`). -/
def modelW : ModelRow :=
  { id := uuidM, name := "gpt", hf_link := "https://huggingface.co/gpt",
    description := "", provider := uuidP, license := none, version := "1",
    param_count := 7, context_window := 1024 }

/-- Prompt fixture row. -/
def promptW : PromptRow :=
  { id := uuidPr, prompt := "Say hi", prompt_tokens := 3, description := none }

/-- Second prompt fixture row. -/
def promptW2 : PromptRow :=
  { id := uuidPr2, prompt := "Say bye", prompt_tokens := 4, description := none }

/-- Evaluator fixture row. -/
def evalW : EvaluatorRow := { id := uuidE, name := "Jane" }

/-- Fixture database. -/
def dbW : Db :=
  { providers := [provW]
    models := [modelW]
    prompts := [promptW, promptW2]
    evaluators := [evalW]
    llmPrompts := []
    userPrompts := [] }

/-- Fixture database with no rows at all. -/
def dbEmpty : Db :=
  { providers := [], models := [], prompts := [], evaluators := [],
    llmPrompts := [], userPrompts := [] }

/-! ## C1 -/

/-- C1: for every model/evaluator list call with `page ≥ 1` and
`limit ∈ [1,100]`, the envelope satisfies
`totalPages = ⌈totalItems / limit⌉`, `currentPage = page`, at most
`limit` items are returned, and the items are the slice at offset
`(page-1)*limit` of the filtered, ordered collection. -/
theorem getAll_pagination_envelope (db : Db) (page limit : Nat)
    (search name provider license : Option String)
    (hp : 1 ≤ page) (hl : 1 ≤ limit) (hl100 : limit ≤ 100) :
    (getAllModels db (some page) (some limit) search name provider license).totalPages =
      ⌈((getAllModels db (some page) (some limit) search name provider license).totalItems : ℚ)
        / (limit : ℚ)⌉₊ ∧
    (getAllModels db (some page) (some limit) search name provider license).currentPage = page ∧
    (getAllModels db (some page) (some limit) search name provider license).items.length
      ≤ limit ∧
    (getAllModels db (some page) (some limit) search name provider license).items =
      ((modelListing db search name provider license).drop ((page - 1) * limit)).take limit ∧
    (getAllEvaluators db (some page) (some limit) search).totalPages =
      ⌈((getAllEvaluators db (some page) (some limit) search).totalItems : ℚ) / (limit : ℚ)⌉₊ ∧
    (getAllEvaluators db (some page) (some limit) search).currentPage = page ∧
    (getAllEvaluators db (some page) (some limit) search).items.length ≤ limit := by
  refine ⟨?_, rfl, ?_, rfl, ?_, rfl, ?_⟩
  · exact (jsCeil_eq_ceil _ limit (by omega)).symm
  · simp only [getAllModels, List.length_take]
    exact Nat.min_le_left _ _
  · exact (jsCeil_eq_ceil _ limit (by omega)).symm
  · simp only [getAllEvaluators, List.length_take]
    exact Nat.min_le_left _ _

/-- Witness for C1 at `page = 2`, `limit = 1` on the fixture
database. -/
theorem getAll_pagination_envelope_witness :
    (getAllModels dbW (some 2) (some 1) none none none none).currentPage = 2 ∧
    (getAllModels dbW (some 2) (some 1) none none none none).items.length ≤ 1 :=
  ⟨(getAll_pagination_envelope dbW 2 1 none none none none (by decide) (by decide)
      (by decide)).2.1,
   (getAll_pagination_envelope dbW 2 1 none none none none (by decide) (by decide)
      (by decide)).2.2.1⟩

/-! ## C10 -/

/-- C10: omitting `page` or `limit` in a list service call behaves
exactly as `page = 1` / `limit = 10` (destructuring defaults): offset
0 for a missing page, at most 10 items and `totalPages` against 10
for a missing limit. -/
theorem list_default_page_limit (db : Db) (page limit : Option Nat)
    (search name provider license u_id p_id : Option String) :
    getAllModels db none limit search name provider license =
      getAllModels db (some 1) limit search name provider license ∧
    getAllModels db page none search name provider license =
      getAllModels db page (some 10) search name provider license ∧
    getAllEvaluators db none limit search = getAllEvaluators db (some 1) limit search ∧
    getAllEvaluators db page none search = getAllEvaluators db page (some 10) search ∧
    getAllUserPrompts db none limit u_id p_id =
      getAllUserPrompts db (some 1) limit u_id p_id ∧
    getAllUserPrompts db page none u_id p_id =
      getAllUserPrompts db page (some 10) u_id p_id ∧
    (getAllModels db none limit search name provider license).items =
      (modelListing db search name provider license).take (limit.getD 10) ∧
    (getAllModels db page none search name provider license).items.length ≤ 10 := by
  refine ⟨rfl, rfl, rfl, rfl, rfl, rfl, ?_, ?_⟩
  · simp [getAllModels, getOffset]
  · simp only [getAllModels, List.length_take]
    exact Nat.min_le_left _ _

/-! ## C6 -/

/-- C6: with valid pagination parameters, a page number beyond
`totalPages` yields a 200 response whose envelope has an empty items
array and the correct `totalItems` and `totalPages`, not an error. -/
theorem list_page_beyond_totalPages (db : Db) (page limit : Nat)
    (search country : Option String)
    (hp : 1 ≤ page) (hl : 1 ≤ limit) (hl100 : limit ≤ 100)
    (hbeyond : (getAllProviders db (some page) (some limit) search country).totalPages < page) :
    getAllProvidersCtrl db (some (page : Int)) (some (limit : Int)) search country =
      ListResp.ok
        { totalItems := (providerListing db search country).length
          totalPages :=
            ⌈((providerListing db search country).length : ℚ) / (limit : ℚ)⌉₊
          currentPage := page
          items := [] } ∧
    (getAllProvidersCtrl db (some (page : Int)) (some (limit : Int)) search country).status
      = 200 := by
  have h1 : ¬ ((page : Int) < 1) := by omega
  have h2 : ¬ ((limit : Int) < 1 ∨ (100 : Int) < (limit : Int)) := by omega
  have hceil : jsCeil (providerListing db search country).length limit < page := by
    simpa [getAllProviders] using hbeyond
  have hcover : (providerListing db search country).length ≤ (page - 1) * limit := by
    have hA := le_jsCeil_mul (providerListing db search country).length limit (by omega)
    have hB : jsCeil (providerListing db search country).length limit * limit
        ≤ (page - 1) * limit := Nat.mul_le_mul_right _ (by omega)
    omega
  have hdrop : (providerListing db search country).drop ((page - 1) * limit) = [] :=
    List.drop_eq_nil_of_le hcover
  have hmain : getAllProvidersCtrl db (some (page : Int)) (some (limit : Int)) search country =
      ListResp.ok
        { totalItems := (providerListing db search country).length
          totalPages :=
            ⌈((providerListing db search country).length : ℚ) / (limit : ℚ)⌉₊
          currentPage := page
          items := [] } := by
    simp only [getAllProvidersCtrl, paginationErrors, if_neg h1, if_neg h2,
      List.nil_append, List.isEmpty_nil, if_true, Option.map_some', Int.toNat_natCast,
      getAllProviders, Option.getD_some, getOffset, hdrop, List.take_nil,
      ListResp.ok.injEq, Paginated.mk.injEq, true_and, and_true]
    exact (jsCeil_eq_ceil _ limit (by omega)).symm
  exact ⟨hmain, by rw [hmain]; rfl⟩

/-- Witness for C6: `page = 5`, `limit = 1` on the one-provider
fixture database (`totalPages = 1 < 5`). -/
theorem list_page_beyond_totalPages_witness :
    (getAllProvidersCtrl dbW (some (5 : Int)) (some (1 : Int)) none none).status = 200 :=
  (list_page_beyond_totalPages dbW 5 1 none none (by decide) (by decide) (by decide)
    (by decide)).2

/-! ## C9 -/

/-- C9: deleting an absent id answers 404 and leaves the state
untouched, and after a successful delete every repetition of the same
DELETE answers 404 with no further state change. -/
theorem deleteProvider_idempotent (db : Db) (id : String) (hid : isUUID4 id = true) :
    (getProviderById db id = none →
      deleteProviderCtrl db id = (DeleteResp.notFound "Provider not found", db)) ∧
    (∀ db1 : Db, deleteProviderCtrl db id = (DeleteResp.noContent, db1) →
      deleteProviderCtrl db1 id = (DeleteResp.notFound "Provider not found", db1)) ∧
    DeleteResp.status (DeleteResp.notFound "Provider not found") = 404 := by
  refine ⟨?_, ?_, rfl⟩
  · intro h
    unfold getProviderById at h
    unfold deleteProviderCtrl deleteProviderService
    rw [h]
    simp [hid]
  · intro db1 h
    unfold deleteProviderCtrl at h
    rw [if_pos hid] at h
    rcases hfind : db.providers.find? (fun p => p.id == id) with _ | prov
    · unfold deleteProviderService at h
      rw [hfind] at h
      simp at h
    · unfold deleteProviderService at h
      rw [hfind] at h
      by_cases href : db.models.any (fun m => m.provider == id) = true
      · rw [if_pos href] at h
        have hinc2 : jsIncludes
            "Cannot delete provider because it is referenced by other records."
            "referenced by other records" = true := by decide
        simp [hinc2] at h
      · rw [if_neg href] at h
        have hdb1 : db1 = { db with providers := db.providers.filter (fun p => p.id != id) } := by
          have := congrArg Prod.snd h
          simpa using this.symm
        subst hdb1
        unfold deleteProviderCtrl deleteProviderService
        rw [if_pos hid]
        have hnone : (db.providers.filter (fun p => p.id != id)).find?
            (fun p => p.id == id) = none := find?_filter_key (fun p => p.id) id db.providers
        rw [show ({ db with providers := db.providers.filter (fun p => p.id != id) } : Db).providers
            = db.providers.filter (fun p => p.id != id) from rfl, hnone]

/-- Witness for C9 on the empty fixture database: the DELETE of an
absent id answers 404 and changes nothing. -/
theorem deleteProvider_idempotent_witness :
    deleteProviderCtrl dbEmpty uuidX = (DeleteResp.notFound "Provider not found", dbEmpty) :=
  (deleteProvider_idempotent dbEmpty uuidX (by decide)).1 rfl

/-! ## C3 -/

/-- C3: deleting a provider still referenced by at least one model
answers 400 with the still-referenced message (distinct from the
not-found message), and the provider row is unchanged and still
retrievable afterwards. -/
theorem deleteProvider_restricted (db : Db) (id : String) (prov : ProviderRow)
    (hid : isUUID4 id = true)
    (hfound : getProviderById db id = some prov)
    (href : db.models.any (fun m => m.provider == id) = true) :
    deleteProviderCtrl db id =
      (DeleteResp.badRequest
        "Cannot delete provider because it is referenced by other records.", db) ∧
    DeleteResp.status (DeleteResp.badRequest
      "Cannot delete provider because it is referenced by other records.") = 400 ∧
    "Cannot delete provider because it is referenced by other records."
      ≠ "Provider not found" ∧
    getProviderById (deleteProviderCtrl db id).2 id = some prov := by
  unfold getProviderById at hfound
  have hserv : deleteProviderService db id =
      (DeleteOutcome.referenced
        "Cannot delete provider because it is referenced by other records.", db) := by
    unfold deleteProviderService
    rw [hfound, if_pos href]
  have hinc : jsIncludes
      "Cannot delete provider because it is referenced by other records."
      "referenced by other records" = true := by decide
  have hmain : deleteProviderCtrl db id =
      (DeleteResp.badRequest
        "Cannot delete provider because it is referenced by other records.", db) := by
    unfold deleteProviderCtrl
    rw [if_pos hid, hserv]
    simp [hinc]
  refine ⟨hmain, rfl, by decide, ?_⟩
  rw [hmain]
  exact hfound

/-- Witness for C3: the fixture provider is referenced by the fixture
model, so its DELETE answers 400 and the row survives. -/
theorem deleteProvider_restricted_witness :
    deleteProviderCtrl dbW uuidP =
      (DeleteResp.badRequest
        "Cannot delete provider because it is referenced by other records.", dbW) :=
  (deleteProvider_restricted dbW uuidP provW (by decide) (by decide) (by decide)).1

/-! ## C2 -/

/-- C2: creating a model whose provider id matches no provider fails
with a 400 referenced-entity-not-found message and inserts no row;
with a valid provider id it answers 201 and the created model is
retrievable by its id with the provider data attached. -/
theorem createModel_checks_provider (db : Db) (newId : String) (data : ModelInput)
    (hfresh : ∀ m ∈ db.models, (m.id == newId) = false) :
    (db.providers.find? (fun p => p.id == data.provider) = none →
      createModelCtrl db newId data =
        (CreateModelResp.handlerError 400
          ("Provider with ID " ++ data.provider ++ " not found."), db) ∧
      CreateModelResp.status (CreateModelResp.handlerError 400
        ("Provider with ID " ++ data.provider ++ " not found.")) = 400 ∧
      jsIncludes ("Provider with ID " ++ data.provider ++ " not found.") "not found."
        = true) ∧
    (∀ prov : ProviderRow, db.providers.find? (fun p => p.id == data.provider) = some prov →
      (createModelCtrl db newId data).1 =
        CreateModelResp.created (some
          { model := mkModelRow newId data
            llmProvider := some { id := prov.id, name := prov.name } }) ∧
      CreateModelResp.status (createModelCtrl db newId data).1 = 201 ∧
      getModelByIdService (createModelCtrl db newId data).2 newId =
        some { model := mkModelRow newId data
               llmProvider := some { id := prov.id, name := prov.name } }) := by
  constructor
  · intro hnone
    refine ⟨?_, rfl, ?_⟩
    · unfold createModelCtrl createModelService
      rw [hnone]
    · unfold jsIncludes
      rw [decide_eq_true_iff]
      have hsplit : ("Provider with ID " ++ data.provider ++ " not found.").toList
          = ("Provider with ID " ++ data.provider).toList ++ (' ' :: "not found.".toList) := by
        simp [String.toList, String.data_append]
      rw [hsplit]
      exact ((List.suffix_cons ' ' _).trans (List.suffix_append _ _)).isInfix
  · intro prov hprov
    have hget : getModelByIdService
        { db with models := db.models ++ [mkModelRow newId data] } newId =
        some { model := mkModelRow newId data
               llmProvider := some { id := prov.id, name := prov.name } } := by
      unfold getModelByIdService
      have hmodels : ({ db with models := db.models ++ [mkModelRow newId data] } : Db).models
          = db.models ++ [mkModelRow newId data] := rfl
      rw [hmodels, find?_append_of_none _ _ _ hfresh]
      have hone : ([mkModelRow newId data].find? (fun m => m.id == newId))
          = some (mkModelRow newId data) := by
        simp [mkModelRow]
      rw [hone]
      unfold attachProvider
      have hprovs : ({ db with models := db.models ++ [mkModelRow newId data] } : Db).providers
          = db.providers := rfl
      simp only [Option.map_some', hprovs]
      have hprovfield : (mkModelRow newId data).provider = data.provider := rfl
      rw [hprovfield, hprov]
      rfl
    have hctrl : createModelCtrl db newId data =
        (CreateModelResp.created (some
          { model := mkModelRow newId data
            llmProvider := some { id := prov.id, name := prov.name } }),
         { db with models := db.models ++ [mkModelRow newId data] }) := by
      unfold createModelCtrl createModelService
      rw [hprov]
      simp only [hget]
    refine ⟨?_, ?_, ?_⟩
    · rw [hctrl]
    · rw [hctrl]; rfl
    · rw [hctrl]
      exact hget

/-- Model payload fixture referencing the fixture provider. -/
def modelInputW : ModelInput :=
  { name := "claude", hf_link := "https://huggingface.co/claude", description := none,
    provider := uuidP, license := none, version := "2", param_count := 9,
    context_window := 4096 }

/-- Model payload fixture referencing an absent provider. -/
def modelInputBad : ModelInput :=
  { modelInputW with provider := uuidX }

/-- Witness for C2: on the fixture database, the create against the
absent provider id answers 400 and changes nothing, and the create
against the present provider answers 201 with the provider attached. -/
theorem createModel_checks_provider_witness :
    (createModelCtrl dbW uuidX modelInputBad =
      (CreateModelResp.handlerError 400
        ("Provider with ID " ++ uuidX ++ " not found."), dbW)) ∧
    (createModelCtrl dbW uuidX modelInputW).1 =
      CreateModelResp.created (some
        { model := mkModelRow uuidX modelInputW
          llmProvider := some { id := provW.id, name := provW.name } }) :=
  ⟨((createModel_checks_provider dbW uuidX modelInputBad (by decide)).1 (by decide)).1,
   ((createModel_checks_provider dbW uuidX modelInputW (by decide)).2 provW (by decide)).1⟩

/-! ## C4 -/

/-- C4: starting from a state where the association `(m, p1)` with a
given order is creatable, the first create succeeds with 201 and
inserts the row; a second create for the same model and order (with a
different prompt) fails with 400 and the duplicate-order message, and
inserts no row. -/
theorem createLLMPrompt_duplicate_order (db : Db) (m p1 p2 : String) (o : Int)
    (hval1 : llmPromptBodyErrors m p1 = [])
    (hval2 : llmPromptBodyErrors m p2 = [])
    (hm : db.models.any (fun x => x.id == m) = true)
    (hp1 : db.prompts.any (fun x => x.id == p1) = true)
    (hp2 : db.prompts.any (fun x => x.id == p2) = true)
    (hne : (p1 == p2) = false)
    (hnopk1 : db.llmPrompts.any
      (fun r => r.model_id == m && r.prompt_id == p1) = false)
    (hnopk2 : db.llmPrompts.any
      (fun r => r.model_id == m && r.prompt_id == p2) = false)
    (hnoord : db.llmPrompts.any
      (fun r => r.model_id == m && r.order == some o) = false) :
    createLLMPromptCtrl db m p1 (some o) =
      (CreateLLMPromptResp.created { model_id := m, prompt_id := p1, order := some o },
       { db with llmPrompts :=
          db.llmPrompts ++ [{ model_id := m, prompt_id := p1, order := some o }] }) ∧
    CreateLLMPromptResp.status
      (CreateLLMPromptResp.created { model_id := m, prompt_id := p1, order := some o })
      = 201 ∧
    createLLMPromptCtrl
      { db with llmPrompts :=
          db.llmPrompts ++ [{ model_id := m, prompt_id := p1, order := some o }] }
      m p2 (some o) =
      (CreateLLMPromptResp.badRequest
        "This order value is already used for the specified model.",
       { db with llmPrompts :=
          db.llmPrompts ++ [{ model_id := m, prompt_id := p1, order := some o }] }) ∧
    CreateLLMPromptResp.status
      (CreateLLMPromptResp.badRequest
        "This order value is already used for the specified model.") = 400 := by
  have hfirst : createLLMPromptCtrl db m p1 (some o) =
      (CreateLLMPromptResp.created { model_id := m, prompt_id := p1, order := some o },
       { db with llmPrompts :=
          db.llmPrompts ++ [{ model_id := m, prompt_id := p1, order := some o }] }) := by
    unfold createLLMPromptCtrl createLLMPromptService dbInsertLLMPrompt
    rw [hval1]
    simp [hm, hp1, hnopk1, hnoord]
  have hsecond : createLLMPromptCtrl
      { db with llmPrompts :=
          db.llmPrompts ++ [{ model_id := m, prompt_id := p1, order := some o }] }
      m p2 (some o) =
      (CreateLLMPromptResp.badRequest
        "This order value is already used for the specified model.",
       { db with llmPrompts :=
          db.llmPrompts ++ [{ model_id := m, prompt_id := p1, order := some o }] }) := by
    have hordb1 : ({ db with llmPrompts :=
        db.llmPrompts ++ [{ model_id := m, prompt_id := p1, order := some o }] } : Db).llmPrompts.any
        (fun r => r.model_id == m && r.order == some o) = true := by
      rw [show ({ db with llmPrompts :=
        db.llmPrompts ++ [{ model_id := m, prompt_id := p1, order := some o }] } : Db).llmPrompts
        = db.llmPrompts ++ [{ model_id := m, prompt_id := p1, order := some o }] from rfl]
      rw [List.any_append, hnoord]
      simp
    have hpkb1 : ({ db with llmPrompts :=
        db.llmPrompts ++ [{ model_id := m, prompt_id := p1, order := some o }] } : Db).llmPrompts.any
        (fun r => r.model_id == m && r.prompt_id == p2) = false := by
      rw [show ({ db with llmPrompts :=
        db.llmPrompts ++ [{ model_id := m, prompt_id := p1, order := some o }] } : Db).llmPrompts
        = db.llmPrompts ++ [{ model_id := m, prompt_id := p1, order := some o }] from rfl]
      rw [List.any_append, hnopk2]
      simp [hne]
    have hinc : jsIncludes "This order value is already used for the specified model."
        "already used for the specified model" = true := by decide
    unfold createLLMPromptCtrl createLLMPromptService dbInsertLLMPrompt
    rw [hval2]
    simp [hm, hp2, hpkb1, hordb1, hinc]
  exact ⟨hfirst, rfl, hsecond, rfl⟩

/-- Witness for C4 on the fixture database (model `uuidM`, prompts
`uuidPr`, `uuidPr2`, order 1). -/
theorem createLLMPrompt_duplicate_order_witness :
    createLLMPromptCtrl
      { dbW with llmPrompts :=
          dbW.llmPrompts ++ [{ model_id := uuidM, prompt_id := uuidPr, order := some 1 }] }
      uuidM uuidPr2 (some 1) =
      (CreateLLMPromptResp.badRequest
        "This order value is already used for the specified model.",
       { dbW with llmPrompts :=
          dbW.llmPrompts ++ [{ model_id := uuidM, prompt_id := uuidPr, order := some 1 }] }) :=
  (createLLMPrompt_duplicate_order dbW uuidM uuidPr uuidPr2 1 (by decide) (by decide)
    (by decide) (by decide) (by decide) (by decide) (by decide) (by decide)
    (by decide)).2.2.1

/-! ## C5 -/

/-- C5 counterexample: a POST /prompt whose body is missing the
required `prompt` field (an input failing the per-field validation
"required" rule) is answered by userPromptController.createPrompt
with status 400 and a single `{message}` body — not with status 422
and a `{field, message}` list — though the service/model layer is
indeed not reached (state unchanged). -/
theorem createPrompt_missing_field_is_400 :
    (createPromptCtrl dbEmpty uuidPr
      { prompt := none, prompt_tokens := some 5, description := none }).1 =
      PromptCtrlResp.badRequest "Missing required fields: prompt and prompt_tokens" ∧
    PromptCtrlResp.status (createPromptCtrl dbEmpty uuidPr
      { prompt := none, prompt_tokens := some 5, description := none }).1 = 400 ∧
    PromptCtrlResp.status (createPromptCtrl dbEmpty uuidPr
      { prompt := none, prompt_tokens := some 5, description := none }).1 ≠ 422 ∧
    (createPromptCtrl dbEmpty uuidPr
      { prompt := none, prompt_tokens := some 5, description := none }).2 = dbEmpty := by
  refine ⟨?_, ?_, ?_, ?_⟩ <;> decide

/-- C5 (amended): requests failing an express-validator rule chain
(here: POST /user_prompt with a non-UUID id) are answered 422 with
the structured `{field, message}` list and the service is never
invoked (the state is unchanged); the prompt entity's inline
controller checks instead answer 400 with a single message, also
without reaching the model layer. -/
theorem validation_short_circuits (db : Db) (user_id prompt_id : String) (now : Nat)
    (newId : String) (b : PromptCreateBody)
    (herr : userPromptCreateErrors user_id prompt_id ≠ [])
    (hmiss : b.prompt_tokens = none) :
    createUserPromptCtrl db user_id prompt_id now =
      (CreateUserPromptResp.unprocessable (userPromptCreateErrors user_id prompt_id), db) ∧
    CreateUserPromptResp.status
      (CreateUserPromptResp.unprocessable (userPromptCreateErrors user_id prompt_id))
      = 422 ∧
    createPromptCtrl db newId b =
      (PromptCtrlResp.badRequest "Missing required fields: prompt and prompt_tokens", db) ∧
    PromptCtrlResp.status
      (PromptCtrlResp.badRequest "Missing required fields: prompt and prompt_tokens")
      = 400 := by
  refine ⟨?_, rfl, ?_, rfl⟩
  · have hne : (userPromptCreateErrors user_id prompt_id).isEmpty = false := by
      cases hcase : userPromptCreateErrors user_id prompt_id with
      | nil => exact absurd hcase herr
      | cons a as => rfl
    simp [createUserPromptCtrl, hne]
  · simp [createPromptCtrl, hmiss]

/-- Witness for C5 (amended) at a malformed user id on the fixture
database. -/
theorem validation_short_circuits_witness :
    createUserPromptCtrl dbW "not-a-uuid" uuidPr 0 =
      (CreateUserPromptResp.unprocessable (userPromptCreateErrors "not-a-uuid" uuidPr),
        dbW) :=
  (validation_short_circuits dbW "not-a-uuid" uuidPr 0 uuidPr
    { prompt := none, prompt_tokens := none, description := none }
    (by decide) rfl).1

/-! ## C7 -/

/-- C7 counterexample: a PUT on the fixture provider providing only
`name` and `hf_link` (no `country` in the payload) succeeds with 200,
but the stored `country` — a field NOT present in the update request —
changes from `some "USA"` to `none`: the controller always writes
`country: country || null`. -/
theorem updateProvider_clears_omitted_country :
    getProviderById dbW uuidP = some provW ∧
    provW.country = some "USA" ∧
    (updateProviderCtrl dbW uuidP
      { name := "OpenAI", hf_link := "https://huggingface.co/openai",
        country := none }).1 =
      UpdateProviderResp.ok { provW with country := none } ∧
    getProviderById
      (updateProviderCtrl dbW uuidP
        { name := "OpenAI", hf_link := "https://huggingface.co/openai",
          country := none }).2 uuidP =
      some { provW with country := none } ∧
    ({ provW with country := none } : ProviderRow).country ≠ provW.country := by
  refine ⟨?_, ?_, ?_, ?_, ?_⟩ <;> decide

/-- C7 (amended): the prompt entity's PUT is a genuine partial update
— every field absent from the payload keeps its prior stored value —
while the provider PUT writes all of name/hf_link/country (omitted
country is stored as null; see the counterexample). -/
theorem updatePrompt_preserves_omitted_fields (db : Db) (id : String)
    (b : PromptUpdateBody) (p : PromptRow)
    (hv : promptTokensInvalid b = false)
    (hfind : db.prompts.find? (fun q => q.id == id) = some p) :
    updatePromptCtrl db id b =
      (PromptCtrlResp.ok (applyPromptUpdate p b),
       { db with prompts :=
          db.prompts.map (fun q => if q.id == id then applyPromptUpdate p b else q) }) ∧
    PromptCtrlResp.status (PromptCtrlResp.ok (applyPromptUpdate p b)) = 200 ∧
    (b.prompt = none → (applyPromptUpdate p b).prompt = p.prompt) ∧
    (b.prompt_tokens = none → (applyPromptUpdate p b).prompt_tokens = p.prompt_tokens) ∧
    (b.description = none → (applyPromptUpdate p b).description = p.description) ∧
    (applyPromptUpdate p b).id = p.id := by
  refine ⟨?_, rfl, ?_, ?_, ?_, rfl⟩
  · simp [updatePromptCtrl, hv, hfind]
  · intro h
    simp [applyPromptUpdate, h]
  · intro h
    simp [applyPromptUpdate, h]
  · intro h
    simp [applyPromptUpdate, h]

/-- Witness for C7 (amended): updating only `prompt_tokens` of the
fixture prompt leaves `prompt` and `description` at their prior
values. -/
theorem updatePrompt_preserves_omitted_fields_witness :
    (applyPromptUpdate promptW
      { prompt := none, prompt_tokens := some 9, description := none }).prompt
      = promptW.prompt ∧
    (applyPromptUpdate promptW
      { prompt := none, prompt_tokens := some 9, description := none }).description
      = promptW.description :=
  ⟨(updatePrompt_preserves_omitted_fields dbW uuidPr
      { prompt := none, prompt_tokens := some 9, description := none } promptW
      (by decide) (by decide)).2.2.1 rfl,
   (updatePrompt_preserves_omitted_fields dbW uuidPr
      { prompt := none, prompt_tokens := some 9, description := none } promptW
      (by decide) (by decide)).2.2.2.2.1 rfl⟩

/-! ## C8 -/

/-- Modelled from the spec for comparison in C8: "a predicate
combining equality filters and case-insensitive substring filters
with implicit AND" — the conjunction of the model list's search
(substring on name), name (equality), provider (equality) and license
(substring) filters. -/
def specModelWhereConj (search name provider license : Option String) (m : ModelRow) :
    Bool :=
  (match truthyStr search with
   | some s => iLike m.name s
   | none => true)
  && (match truthyStr name with
      | some n => m.name == n
      | none => true)
  && (match truthyStr provider with
      | some p => m.provider == p
      | none => true)
  && (match truthyStr license with
      | some l => iLikeOpt m.license l
      | none => true)

/-- Model fixture row for the C8 counterexample. -/
def bravoRow : ModelRow :=
  { id := uuidM, name := "Bravo", hf_link := "https://huggingface.co/bravo",
    description := "", provider := uuidP, license := none, version := "1",
    param_count := 7, context_window := 1024 }

/-- Fixture database holding only `bravoRow`. -/
def dbBravo : Db :=
  { providers := [], models := [bravoRow], prompts := [], evaluators := [],
    llmPrompts := [], userPrompts := [] }

/-- C8 counterexample: listing models with `search = "alpha"` and
`name = "Bravo"` returns the row named "Bravo" even though that row
fails the conjunction of the two filters ("alpha" is not a substring
of "Bravo"): the exact-name filter overwrites the search filter
instead of being ANDed with it. -/
theorem modelFilter_not_conjunction :
    (getAllModels dbBravo (some 1) (some 10) (some "alpha") (some "Bravo") none none).items
      = [{ model := bravoRow, llmProvider := none }] ∧
    specModelWhereConj (some "alpha") (some "Bravo") none none bravoRow = false ∧
    modelWhere (some "alpha") (some "Bravo") none none bravoRow = true := by
  refine ⟨?_, ?_, ?_⟩ <;> decide

/-- C8 (amended): filters on distinct columns are ANDed and absent
filters match every row; but the model list's `search` and `name`
both target the name column, and a supplied exact `name` filter
replaces the search filter, so with both supplied only the equality
on name is applied. -/
theorem list_filter_combination (s c n : String)
    (hs : s ≠ "") (hc : c ≠ "") (hn : n ≠ "") :
    (∀ r : ProviderRow,
      providerWhere (some s) (some c) r = (iLike r.name s && iLikeEqOpt r.country c)) ∧
    (∀ r : ProviderRow, providerWhere none none r = true) ∧
    (∀ m : ModelRow, ∀ search : Option String,
      modelWhere search (some n) none none m = (m.name == n)) ∧
    (∀ m : ModelRow, modelWhere (some s) none none none m = iLike m.name s) ∧
    (∀ m : ModelRow, modelWhere none none none none m = true) := by
  refine ⟨?_, ?_, ?_, ?_, ?_⟩
  · intro r
    simp [providerWhere, truthyStr, hs, hc]
  · intro r
    simp [providerWhere, truthyStr]
  · intro m search
    simp [modelWhere, modelNameCond, truthyStr, hn]
  · intro m
    simp [modelWhere, modelNameCond, truthyStr, hs]
  · intro m
    simp [modelWhere, modelNameCond, truthyStr]

/-- Witness for C8 (amended) at concrete filter values. -/
theorem list_filter_combination_witness :
    providerWhere (some "open") (some "usa") provW
      = (iLike provW.name "open" && iLikeEqOpt provW.country "usa") ∧
    modelWhere (some "alpha") (some "Bravo") none none bravoRow = (bravoRow.name == "Bravo") :=
  ⟨(list_filter_combination "open" "usa" "Bravo" (by decide) (by decide) (by decide)).1 provW,
   (list_filter_combination "open" "usa" "Bravo" (by decide) (by decide)
      (by decide)).2.2.1 bravoRow (some "alpha")⟩
